import Mathlib

/-!
Verification of the configuration-management logic of the pycosim package.

The development shallowly embeds the pure logic of
`pycosim/simulation.py` and `pycosim/osp_command_line_interface.py`:
validation of configuration objects against FMU model metadata, the
relative-path computation used when deploying files, the construction of
the argument lists handed to the external `cosim` binary, and the shape of
the values the subprocess wrappers return.  Python's dynamic values are
modelled by small inductive types, raised exceptions by an `Except` result,
and the mutable `SimulationConfiguration` object by explicit state passing:
every method returns its result together with the (possibly updated)
configuration, and a method that raises returns the configuration as it was
at the moment of the raise.

Data types of the external pyOSPParser library (OspSystemStructure,
OspVariableEndpoint, logging configuration, ...) are modelled from the way
this repository uses them: containers with append/remove/upsert operations.
-/

namespace Pycosim

/-- Python exceptions raised by the embedded code. -/
inductive PyErr
  | typeError (msg : String)
  | valueError (msg : String)
deriving DecidableEq, Repr

instance {ε α : Type} [DecidableEq ε] [DecidableEq α] : DecidableEq (Except ε α) := fun a b =>
  match a, b with
  | .ok x, .ok y =>
    if h : x = y then .isTrue (by rw [h]) else .isFalse (by intro hc; cases hc; exact h rfl)
  | .error x, .error y =>
    if h : x = y then .isTrue (by rw [h]) else .isFalse (by intro hc; cases hc; exact h rfl)
  | .ok _, .error _ => .isFalse (by intro hc; cases hc)
  | .error _, .ok _ => .isFalse (by intro hc; cases hc)

/-- A dynamically typed Python value of the kinds accepted by
`convert_value_to_osp_type`: float, int, bool or str.  Python floats are
modelled as rationals. -/
inductive PyVal
  | pyFloat (v : Rat)
  | pyInt (v : Int)
  | pyBool (v : Bool)
  | pyStr (v : String)
deriving DecidableEq, Repr

/-- Python `isinstance(value, float)`: true exactly for float objects
(bool is not a subclass of float). -/
def PyVal.isinstance_float : PyVal → Bool
  | .pyFloat _ => true
  | _ => false

/-- Python `isinstance(value, int)`: true for int objects and also for bool
objects, because `bool` is a subclass of `int` in Python. -/
def PyVal.isinstance_int : PyVal → Bool
  | .pyInt _ => true
  | .pyBool _ => true
  | _ => false

/-- Python `isinstance(value, str)`. -/
def PyVal.isinstance_str : PyVal → Bool
  | .pyStr _ => true
  | _ => false

/-- Python `isinstance(value, bool)`. -/
def PyVal.isinstance_bool : PyVal → Bool
  | .pyBool _ => true
  | _ => false

/-- The OSP variable value wrappers of pyOSPParser (OspReal, OspInteger,
OspString, OspBoolean).  Each wrapper stores the Python value it was
constructed with. -/
inductive OspValue
  | OspReal (value : PyVal)
  | OspInteger (value : PyVal)
  | OspString (value : PyVal)
  | OspBoolean (value : PyVal)
deriving DecidableEq, Repr

/-- Whether an `OspValue` was built with the `OspBoolean` wrapper. -/
def OspValue.is_boolean : OspValue → Bool
  | .OspBoolean _ => true
  | _ => false

/-- Embedding of `convert_value_to_osp_type` (simulation.py, lines 86-106)
for calls with `type_var=None` (the optional pre-cast `value = type_var(value)`
is a no-op then; no claim concerns a non-None `type_var`).  The branch order
follows the source: float, int, str, bool; falling off the end of the
function returns Python `None`, modelled as `none`. -/
def convert_value_to_osp_type (value : PyVal) : Option OspValue :=
  if value.isinstance_float then some (.OspReal value)
  else if value.isinstance_int then some (.OspInteger value)
  else if value.isinstance_str then some (.OspString value)
  else if value.isinstance_bool then some (.OspBoolean value)
  else none

/-- Strings are modelled as their lists of characters for the path
computation.  Embedding of the two leading lines of `get_fmu_rel_path`
(simulation.py, lines 445-448): if the path ends with `os.sep`, drop the
final separator (`path[:path.rfind(os.sep)]` under the `endswith` guard
removes exactly the last character, since `os.sep` is one character). -/
def strip_trailing_sep (sep : Char) (path : List Char) : List Char :=
  if path.getLast? = some sep then path.dropLast else path

/-- Python `s.replace(os.sep, "/")` for a one-character separator. -/
def replace_sep (sep : Char) (s : List Char) : List Char :=
  s.map (fun c => if c = sep then '/' else c)

/-- Python `s * n` for strings: `n` concatenated copies of `s`. -/
def repeat_chars (s : List Char) (n : Nat) : List Char :=
  (List.replicate n s).flatten

/-- Embedding of `SimulationConfiguration.get_fmu_rel_path`
(simulation.py, lines 442-457).  `sep` stands for `os.sep`. -/
def get_fmu_rel_path (sep : Char) (path_to_deploy path_to_sys_struct : List Char) : List Char :=
  let path_to_deploy := strip_trailing_sep sep path_to_deploy
  let path_to_sys_struct := strip_trailing_sep sep path_to_sys_struct
  if path_to_sys_struct.length ≤ path_to_deploy.length then
    let rel_path := (replace_sep sep (path_to_deploy.drop path_to_sys_struct.length)).drop 1
    if 0 < rel_path.length then rel_path ++ ['/'] else []
  else
    let rel_path := path_to_sys_struct.drop path_to_deploy.length
    let depth := rel_path.count sep
    repeat_chars "../".toList depth

/-- A model variable as listed in an FMU model description.  The source
keeps each variable as a `Dict[str, str]`; the configuration logic only
ever reads its `'name'` entry, so only that entry is modelled. -/
structure ModelVariable where
  name : String
deriving DecidableEq, Repr

/-- The part of the `FMU` class (simulation.py, lines 113-180) consulted by
the configuration logic: the model name, the fmu file path, and the four
variable lists read from the model description. -/
structure FMU where
  name : String
  fmu_file : String
  parameters : List ModelVariable
  inputs : List ModelVariable
  outputs : List ModelVariable
  other_variables : List ModelVariable
deriving DecidableEq, Repr

/-- `FMU.get_input_names` (simulation.py, lines 165-167). -/
def FMU.get_input_names (fmu : FMU) : List String :=
  fmu.inputs.map (·.name)

/-- `FMU.get_output_names` (simulation.py, lines 169-171). -/
def FMU.get_output_names (fmu : FMU) : List String :=
  fmu.outputs.map (·.name)

/-- `FMU.get_parameter_names` (simulation.py, lines 173-175). -/
def FMU.get_parameter_names (fmu : FMU) : List String :=
  fmu.parameters.map (·.name)

/-- `FMU.get_other_variable_names` (simulation.py, lines 177-179). -/
def FMU.get_other_variable_names (fmu : FMU) : List String :=
  fmu.other_variables.map (·.name)

/-- The `Component` named tuple (simulation.py, lines 277-280). -/
structure Component where
  name : String
  fmu : FMU
deriving DecidableEq, Repr

/-- The `Causality` enum (simulation.py, lines 283-287). -/
inductive Causality
  | input
  | output
  | indefinite
deriving DecidableEq, Repr

/-- The `InitialValues` named tuple (simulation.py, lines 290-294); the
field `var` mirrors the source field `variable`, which is a reserved word
in Lean. -/
structure InitialValues where
  component : String
  var : String
  value : PyVal
deriving DecidableEq, Repr

/-- The `FunctionType` enum of pyOSPParser, which has exactly the three
members used by `add_function`. -/
inductive FunctionType
  | LinearTransformation
  | Sum
  | VectorSum
deriving DecidableEq, Repr

/-- The dynamically typed `function_type` argument of `add_function`:
either one of the three `FunctionType` enum members, or (`otherValue`) any
other Python value, all of which compare unequal to every enum member under
Python `==`. -/
inductive FunctionTypeArg
  | member (ft : FunctionType)
  | otherValue
deriving DecidableEq, Repr

/-- The `Function` named tuple (simulation.py, lines 305-312); fields that
a construction site does not pass keep their `None` default. -/
structure Function where
  type : FunctionType
  name : String
  factor : Option Rat := none
  offset : Option Rat := none
  inputCount : Option Int := none
  dimension : Option Int := none
deriving DecidableEq, Repr

/-- The keyword arguments consulted by `add_function` via `kwargs.get`:
an absent key yields `None`. -/
structure AddFunctionKwargs where
  factor : Option Rat := none
  offset : Option Rat := none
  inputCount : Option Int := none
  dimension : Option Int := none
deriving DecidableEq, Repr

/-- pyOSPParser's `OspVariableEndpoint`: a component (simulator) name plus
a variable name. -/
structure OspVariableEndpoint where
  simulator : String
  name : String
deriving DecidableEq, Repr

/-- pyOSPParser's `OspVariableConnection`, modelled as its source and
target endpoints. -/
structure OspVariableConnection where
  source : OspVariableEndpoint
  target : OspVariableEndpoint
deriving DecidableEq, Repr

/-- pyOSPParser's `OspVariableGroupConnection`, modelled as its source and
target endpoints. -/
structure OspVariableGroupConnection where
  source : OspVariableEndpoint
  target : OspVariableEndpoint
deriving DecidableEq, Repr

/-- pyOSPParser's `OspInitialValue`: a variable name and an OSP-typed
value.  The value field is optional because `convert_value_to_osp_type`
can return Python `None`. -/
structure OspInitialValue where
  var : String
  value : Option OspValue
deriving DecidableEq, Repr

/-- pyOSPParser's `OspSimulator` as constructed by `add_component`
(simulation.py, lines 569-574). -/
structure OspSimulator where
  name : String
  source : String
  stepSize : Option Rat
  fmu_rel_path : String
  InitialValues : List OspInitialValue
deriving DecidableEq, Repr

/-- The function entries pyOSPParser stores in the system structure
(OspLinearTransformationFunction, OspSumFunction, OspVectorSumFunction). -/
inductive OspFunction
  | linearTransformation (name : String) (factor offset : Rat)
  | sumFunction (name : String) (inputCount : Int)
  | vectorSum (name : String) (inputCount dimension : Int)
deriving DecidableEq, Repr

/-- pyOSPParser's `OspSystemStructure`, modelled from the way this
repository uses it: lists of simulators, variable connections, variable
group connections and functions, plus the base step size. -/
structure OspSystemStructure where
  Simulators : List OspSimulator
  VariableConnections : List OspVariableConnection
  VariableGroupConnections : List OspVariableGroupConnection
  Functions : List OspFunction
  BaseStepSize : Option Rat
deriving DecidableEq, Repr

/-- The system structure `OspSystemStructure()` starts from: everything
empty. -/
def OspSystemStructure.empty : OspSystemStructure :=
  { Simulators := [], VariableConnections := [], VariableGroupConnections := [],
    Functions := [], BaseStepSize := none }

/-- Models pyOSPParser's `OspSystemStructure.add_simulator`: appends the
simulator. -/
def OspSystemStructure.add_simulator (ss : OspSystemStructure) (sim : OspSimulator) :
    OspSystemStructure :=
  { ss with Simulators := ss.Simulators ++ [sim] }

/-- Models pyOSPParser's `OspSystemStructure.delete_simulator`: removes the
simulators carrying the given name. -/
def OspSystemStructure.delete_simulator (ss : OspSystemStructure) (name : String) :
    OspSystemStructure :=
  { ss with Simulators := ss.Simulators.filter (fun sim => sim.name ≠ name) }

/-- The connection value returned by `add_connection`. -/
inductive AddedConnection
  | var (conn : OspVariableConnection)
  | varGroup (conn : OspVariableGroupConnection)
deriving DecidableEq, Repr

/-- Models pyOSPParser's `OspSystemStructure.add_connection` for variable
endpoints: stores a variable connection, or a variable group connection
when `group` is true, and returns it. -/
def OspSystemStructure.add_connection (ss : OspSystemStructure)
    (source target : OspVariableEndpoint) (group : Bool) :
    AddedConnection × OspSystemStructure :=
  if group then
    let conn : OspVariableGroupConnection := ⟨source, target⟩
    (.varGroup conn,
      { ss with VariableGroupConnections := ss.VariableGroupConnections ++ [conn] })
  else
    let conn : OspVariableConnection := ⟨source, target⟩
    (.var conn, { ss with VariableConnections := ss.VariableConnections ++ [conn] })

/-- Models pyOSPParser's `OspSystemStructure.get_all_endpoints_for_component`:
the endpoints of variable connections that belong to the named simulator.
The source wraps the call in `try ... except TypeError: return []`; the
model never raises and returns the (possibly empty) list directly. -/
def OspSystemStructure.get_all_endpoints_for_component (ss : OspSystemStructure)
    (name : String) : List OspVariableEndpoint :=
  (ss.VariableConnections.map (·.source) ++ ss.VariableConnections.map (·.target)).filter
    (fun endpoint => endpoint.simulator = name)

/-- Models pyOSPParser's upsert of an initial value inside one simulator:
replace the entry for the same variable if present, append otherwise. -/
def OspSimulator.add_update_initial_value (sim : OspSimulator) (init_value : OspInitialValue) :
    OspSimulator :=
  if sim.InitialValues.any (fun old => old.var = init_value.var) then
    { sim with InitialValues :=
        sim.InitialValues.map (fun old => if old.var = init_value.var then init_value else old) }
  else
    { sim with InitialValues := sim.InitialValues ++ [init_value] }

/-- Models pyOSPParser's `OspSystemStructure.add_update_initial_value`:
upserts the value inside the simulator carrying the component name. -/
def OspSystemStructure.add_update_initial_value (ss : OspSystemStructure)
    (component_name : String) (init_value : OspInitialValue) : OspSystemStructure :=
  { ss with Simulators := ss.Simulators.map (fun sim =>
      if sim.name = component_name then sim.add_update_initial_value init_value else sim) }

/-- Models pyOSPParser's `OspSystemStructure.add_function`: stores the
function entry and returns it. -/
def OspSystemStructure.add_function (ss : OspSystemStructure) (fn : OspFunction) :
    OspFunction × OspSystemStructure :=
  (fn, { ss with Functions := ss.Functions ++ [fn] })

/-- pyOSPParser's `OspSimulatorForLogging`: a component name, its
decimation factor and the list of logged variable names. -/
structure OspSimulatorForLogging where
  name : String
  decimation_factor : Int
  logged_variables : List String
deriving DecidableEq, Repr

/-- Models pyOSPParser's `OspSimulatorForLogging.add_variable`: appends the
variable name. -/
def OspSimulatorForLogging.add_variable (sim : OspSimulatorForLogging)
    (variable_name : String) : OspSimulatorForLogging :=
  { sim with logged_variables := sim.logged_variables ++ [variable_name] }

/-- pyOSPParser's `OspLoggingConfiguration`: its `simulators` attribute may
be `None`. -/
structure OspLoggingConfiguration where
  simulators : Option (List OspSimulatorForLogging)
deriving DecidableEq, Repr

/-- The part of the `SimulationConfiguration` object state involved in the
verified claims.  Fields handled purely by file staging (`_scenario`,
`_current_sim_path`) are not modelled. -/
structure SimulationConfiguration where
  components : List Component
  initial_values : List InitialValues
  functions : List Function
  system_structure : OspSystemStructure
  logging_config : Option OspLoggingConfiguration
deriving DecidableEq, Repr

/-- The state `SimulationConfiguration()` builds when it is constructed
without arguments (simulation.py, lines 374-378). -/
def empty_simulation_configuration : SimulationConfiguration :=
  { components := [], initial_values := [], functions := [],
    system_structure := OspSystemStructure.empty, logging_config := none }

/-- `SimulationConfiguration.get_component_names` (simulation.py,
lines 538-540). -/
def SimulationConfiguration.get_component_names (cfg : SimulationConfiguration) :
    List String :=
  cfg.components.map (·.name)

/-- `SimulationConfiguration.get_component_by_name` (simulation.py,
lines 785-790): the first component carrying the name, or a TypeError. -/
def SimulationConfiguration.get_component_by_name (cfg : SimulationConfiguration)
    (name : String) : Except PyErr Component :=
  match cfg.components.find? (fun component => component.name == name) with
  | some component => .ok component
  | none => .error (.typeError ("No component is found with the given name: " ++ name))

/-- `os.path.basename` for POSIX paths: the part after the last slash. -/
def basename (path : String) : String :=
  (path.splitOn "/").getLastD path

/-- `SimulationConfiguration.add_component` (simulation.py, lines 542-577).
The component is appended and a simulator is added to the system structure
only when the name is not already taken; otherwise a TypeError is raised
and the state at the raise is the unchanged input state. -/
def SimulationConfiguration.add_component (cfg : SimulationConfiguration)
    (name : String) (fmu : FMU) (stepSize : Option Rat) (rel_path_to_fmu : String) :
    Except PyErr Component × SimulationConfiguration :=
  if name ∉ cfg.get_component_names then
    let component : Component := ⟨name, fmu⟩
    let cfg := { cfg with components := cfg.components ++ [component] }
    let cfg := { cfg with system_structure :=
        cfg.system_structure.add_simulator ⟨name, basename fmu.fmu_file, stepSize, rel_path_to_fmu, []⟩ }
    (.ok component, cfg)
  else
    (.error (.typeError "The name duplicates with the existing components."), cfg)

/-- `SimulationConfiguration.delete_component` (simulation.py,
lines 579-590).  `self.components.pop(self.components.index(component))`
removes the first element equal to the component found by name, which is
`List.erase`. -/
def SimulationConfiguration.delete_component (cfg : SimulationConfiguration)
    (component_name : String) : Except PyErr Bool × SimulationConfiguration :=
  if component_name ∉ cfg.get_component_names then
    (.error (.typeError "No component is found with "), cfg)
  else
    match cfg.get_component_by_name component_name with
    | .error e => (.error e, cfg)
    | .ok component =>
      let cfg := { cfg with components := cfg.components.erase component }
      let cfg := { cfg with system_structure :=
          cfg.system_structure.delete_simulator component_name }
      (.ok true, cfg)

/-- The loop body of
`get_variable_endpoints_of_component_for_variable_connection`
(simulation.py, lines 640-652): for each endpoint, look the component up by
the endpoint's simulator name (which can raise a TypeError) and keep the
endpoint when its name is among the names selected from the component's
model. -/
def SimulationConfiguration.filter_endpoints_by_names (cfg : SimulationConfiguration)
    (pick : FMU → List String) :
    List OspVariableEndpoint → Except PyErr (List OspVariableEndpoint)
  | [] => .ok []
  | endpoint :: rest =>
    match cfg.get_component_by_name endpoint.simulator with
    | .error e => .error e
    | .ok component =>
      match cfg.filter_endpoints_by_names pick rest with
      | .error e => .error e
      | .ok tail =>
        if endpoint.name ∈ pick component.fmu then .ok (endpoint :: tail) else .ok tail

/-- `SimulationConfiguration.get_variable_endpoints_of_component_for_variable_connection`
(simulation.py, lines 624-653). -/
def SimulationConfiguration.get_variable_endpoints_of_component_for_variable_connection
    (cfg : SimulationConfiguration) (component_name : String) (causality : Option Causality) :
    Except PyErr (List OspVariableEndpoint) :=
  let endpoints := cfg.system_structure.get_all_endpoints_for_component component_name
  match causality with
  | some .input => cfg.filter_endpoints_by_names FMU.get_input_names endpoints
  | some .output => cfg.filter_endpoints_by_names FMU.get_output_names endpoints
  | _ => .ok endpoints

/-- `SimulationConfiguration.validate_variable_endpoint` (simulation.py,
lines 592-622): the component lookup and the variable-name check, followed
for input causality by the check that no endpoint of the component already
uses the same input variable. -/
def SimulationConfiguration.validate_variable_endpoint (cfg : SimulationConfiguration)
    (endpoint : OspVariableEndpoint) (causality : Causality) : Except PyErr Bool :=
  match cfg.components.find? (fun component => component.name == endpoint.simulator) with
  | none => .error (.typeError ("The component name given in the input does not match " ++
      "the names of components in the system."))
  | some component =>
    let variable_names := if causality = Causality.input then component.fmu.get_input_names
      else component.fmu.get_output_names
    if endpoint.name ∉ variable_names then
      .error (.typeError ("The input variable does not match the names of " ++
        "inputs of the component."))
    else if causality = Causality.input then
      match cfg.get_variable_endpoints_of_component_for_variable_connection
          endpoint.simulator (some Causality.input) with
      | .error e => .error e
      | .ok target_endpoints =>
        if endpoint.name ∈ target_endpoints.map (·.name) then
          .error (.typeError "An endpoint already exists for this target.")
        else .ok true
    else .ok true

/-- `SimulationConfiguration.add_connection` (simulation.py, lines 680-707)
for two `OspVariableEndpoint` arguments (the only case the claims concern;
for those both `isinstance(..., OspVariableEndpoint)` guards are true, so
with `group=False` both endpoints are validated before the system structure
is touched, and with `group=True` neither is). -/
def SimulationConfiguration.add_connection (cfg : SimulationConfiguration)
    (source target : OspVariableEndpoint) (group : Bool) :
    Except PyErr AddedConnection × SimulationConfiguration :=
  if group then
    let (conn, ss) := cfg.system_structure.add_connection source target true
    (.ok conn, { cfg with system_structure := ss })
  else
    match cfg.validate_variable_endpoint source Causality.output with
    | .error e => (.error e, cfg)
    | .ok _ =>
      match cfg.validate_variable_endpoint target Causality.input with
      | .error e => (.error e, cfg)
      | .ok _ =>
        let (conn, ss) := cfg.system_structure.add_connection source target false
        (.ok conn, { cfg with system_structure := ss })

/-- `SimulationConfiguration.get_initial_value_by_variable` (simulation.py,
lines 792-800): the first initial value carrying the component and variable
names, or a TypeError. -/
def SimulationConfiguration.get_initial_value_by_variable (cfg : SimulationConfiguration)
    (component : String) (var_name : String) : Except PyErr InitialValues :=
  match cfg.initial_values.find? (fun init_value =>
      init_value.component == component && init_value.var == var_name) with
  | some init_value => .ok init_value
  | none => .error (.typeError ("No initial value is found with the given variable: " ++ var_name))

/-- `SimulationConfiguration.add_update_initial_value` (simulation.py,
lines 720-770) for calls with `type_value=None` (no claim concerns a
non-None `type_value`; with `None` the conversion
`convert_value_to_osp_type(value, None)` leaves the value as given).
The component lookup and the parameter/input membership check can raise;
afterwards the first existing entry for the same (component, variable) pair
is removed (`pop(index(...))` is `List.erase`), the new entry is appended,
and the system structure is updated. -/
def SimulationConfiguration.add_update_initial_value (cfg : SimulationConfiguration)
    (component_name : String) (var_name : String) (value : PyVal) :
    Except PyErr InitialValues × SimulationConfiguration :=
  match cfg.get_component_by_name component_name with
  | .error e => (.error e, cfg)
  | .ok component =>
    if var_name ∉ component.fmu.get_parameter_names ∧
        var_name ∉ component.fmu.get_input_names then
      (.error (.typeError ("No variable is found in the inputs / parameters of " ++
        "the model with the name " ++ var_name ++ ". You cannot set " ++
        "initial value for outputs.")), cfg)
    else
      let init_value : InitialValues := ⟨component_name, var_name, value⟩
      let cfg :=
        match cfg.get_initial_value_by_variable component_name var_name with
        | .ok old => { cfg with initial_values := cfg.initial_values.erase old }
        | .error _ => cfg
      let cfg := { cfg with initial_values := cfg.initial_values ++ [init_value] }
      let value_osp_type := convert_value_to_osp_type value
      let cfg := { cfg with system_structure :=
          cfg.system_structure.add_update_initial_value component_name ⟨var_name, value_osp_type⟩ }
      (.ok init_value, cfg)

/-- `SimulationConfiguration.add_function` (simulation.py, lines 802-870).
Each recognised function type validates its keyword arguments, appends a
`Function` entry and stores the function in the system structure; any other
`function_type` falls through all three `if` blocks and the method returns
Python `None` (`.ok none`) without touching the state. -/
def SimulationConfiguration.add_function (cfg : SimulationConfiguration)
    (function_name : String) (function_type : FunctionTypeArg) (kwargs : AddFunctionKwargs) :
    Except PyErr (Option OspFunction) × SimulationConfiguration :=
  if function_type = .member .LinearTransformation then
    match kwargs.factor with
    | none => (.error (.typeError ("\"factor\" argument should be provided for a linear " ++
        "transformation function")), cfg)
    | some factor =>
      match kwargs.offset with
      | none => (.error (.typeError ("\"offset\" argument should be provided for a linear " ++
          "transformation function")), cfg)
      | some offset =>
        let cfg := { cfg with functions := cfg.functions ++
            [({ name := function_name, type := .LinearTransformation,
                factor := some factor, offset := some offset } : Function)] }
        let (fn, ss) := cfg.system_structure.add_function
            (.linearTransformation function_name factor offset)
        (.ok (some fn), { cfg with system_structure := ss })
  else if function_type = .member .Sum then
    match kwargs.inputCount with
    | none => (.error (.typeError "\"inputCount\" argument should be provided for a sum function"),
        cfg)
    | some inputCount =>
      let cfg := { cfg with functions := cfg.functions ++
          [({ name := function_name, type := .Sum, inputCount := some inputCount } : Function)] }
      let (fn, ss) := cfg.system_structure.add_function (.sumFunction function_name inputCount)
      (.ok (some fn), { cfg with system_structure := ss })
  else if function_type = .member .VectorSum then
    match kwargs.inputCount with
    | none => (.error (.typeError "\"inputCount\" argument should be provided for a sum function"),
        cfg)
    | some inputCount =>
      match kwargs.dimension with
      | none => (.error (.typeError "\"dimension\" argument should be provided for a sum function"),
          cfg)
      | some dimension =>
        let cfg := { cfg with functions := cfg.functions ++
            [({ name := function_name, type := .VectorSum,
                inputCount := some inputCount, dimension := some dimension } : Function)] }
        let (fn, ss) := cfg.system_structure.add_function
            (.vectorSum function_name inputCount dimension)
        (.ok (some fn), { cfg with system_structure := ss })
  else
    (.ok none, cfg)

/-- Replace the first element satisfying the predicate, as Python's pattern
of fetching one element with `next(x for x in xs if ...)` and mutating that
object in place does. -/
def update_first {α : Type} (p : α → Bool) (f : α → α) : List α → List α
  | [] => []
  | x :: xs => if p x then f x :: xs else x :: update_first p f xs

/-- `SimulationConfiguration.add_logging_variable` (simulation.py,
lines 872-921).  The component and variable checks can raise; then the
logging configuration (created on first use) either already holds an entry
for the component, whose variable list is extended, or a new entry is
appended with the given decimation factor and then extended. -/
def SimulationConfiguration.add_logging_variable (cfg : SimulationConfiguration)
    (component_name : String) (variable_name : String) (decimation_factor : Int) :
    Except PyErr Bool × SimulationConfiguration :=
  if component_name ∉ cfg.get_component_names then
    (.error (.typeError "No component is found with the name."), cfg)
  else
    match cfg.get_component_by_name component_name with
    | .error e => (.error e, cfg)
    | .ok comp =>
      if variable_name ∉ comp.fmu.get_input_names ++ comp.fmu.get_output_names ++
          comp.fmu.get_parameter_names ++ comp.fmu.get_other_variable_names then
        (.error (.typeError "No variable or parameter is found with the name."), cfg)
      else
        let logging_config := cfg.logging_config.getD ⟨none⟩
        let simulators := logging_config.simulators.getD []
        match simulators.find? (fun sim => sim.name == component_name) with
        | some _ =>
          let simulators := update_first (fun sim => sim.name == component_name)
              (fun sim => sim.add_variable variable_name) simulators
          (.ok true, { cfg with logging_config := some ⟨some simulators⟩ })
        | none =>
          let simulators := simulators ++ [⟨component_name, decimation_factor, []⟩]
          let simulators := update_first (fun sim => sim.name == component_name)
              (fun sim => sim.add_variable variable_name) simulators
          (.ok true, { cfg with logging_config := some ⟨some simulators⟩ })

/-- The `LoggingLevel` enum (osp_command_line_interface.py, lines 95-99). -/
inductive LoggingLevel
  | error
  | warning
  | info
  | debug
deriving DecidableEq, Repr

/-- The `.name` attribute of a `LoggingLevel` member. -/
def LoggingLevel.name : LoggingLevel → String
  | .error => "error"
  | .warning => "warning"
  | .info => "info"
  | .debug => "debug"

/-- The `.value` attribute of a `LoggingLevel` member. -/
def LoggingLevel.value : LoggingLevel → Nat
  | .error => 40
  | .warning => 30
  | .info => 20
  | .debug => 10

/-- `os.path.join(a, b)` on POSIX for a relative second argument and a
first argument without a trailing slash. -/
def path_join (a b : String) : String :=
  a ++ "/" ++ b

/-- Argument list built by `run_single_fmu` (osp_command_line_interface.py,
lines 185-227).  `cosim` stands for `PATH_TO_COSIM`; the initial values are
the dictionary's (key, str(value)) pairs in insertion order; `fmt` stands
for the `'%f'`-style rendering of a Python float, and numeric options are
appended under Python truthiness (`if duration:`), so a `0` value behaves
like an absent one. -/
def run_single_fmu_args (cosim : String) (path_to_fmu : String)
    (initial_values : List (String × String)) (output_file_path : Option String)
    (duration step_size : Option Rat) (fmt : Rat → String) : List String :=
  let output_file_path := output_file_path.getD "model-output.csv"
  let mode := "run-single"
  let args := [cosim, mode, path_to_fmu]
  let args := args ++ initial_values.map (fun kv => kv.1 ++ "=" ++ kv.2)
  let args := args ++ ["--output-file=" ++ output_file_path]
  let args := match duration with
    | some d => if d = 0 then args else args ++ ["-d" ++ fmt d]
    | none => args
  let args := match step_size with
    | some d => if d = 0 then args else args ++ ["-s" ++ fmt d]
    | none => args
  args

/-- What `run_cosimulation` does before invoking the binary: the files it
writes and the argument list it builds. -/
structure CosimInvocation where
  args : List String
  files_written : List String
deriving DecidableEq, Repr

/-- The preparation phase of `run_cosimulation`
(osp_command_line_interface.py, lines 301-336): with a logging
configuration, `LogConfig.xml` is deployed into the system structure
directory; the `--output-dir=` flag uses the output path or defaults to the
system structure directory; with a scenario (modelled by its file name,
`scenario.get_file_name()`), the scenario file is deployed and a
`--scenario=` flag is appended; a truthy duration appends `--duration=`
(`fmt` stands for Python's `str()` of a float); finally `--log-level=` is
appended. -/
def run_cosimulation_invocation (cosim : String) (path_to_system_structure : String)
    (logging_config : Option OspLoggingConfiguration) (output_file_path : Option String)
    (scenario_file : Option String) (duration : Option Rat)
    (logging_level : LoggingLevel) (fmt : Rat → String) : CosimInvocation :=
  let mode := "run"
  let args := [cosim, mode, path_to_system_structure]
  let files := match logging_config with
    | some _ => [path_join path_to_system_structure "LogConfig.xml"]
    | none => []
  let output_file_path := output_file_path.getD path_to_system_structure
  let args := args ++ ["--output-dir=" ++ output_file_path]
  let (args, files) := match scenario_file with
    | some file_name =>
      let scenario_file_path := path_join path_to_system_structure file_name
      (args ++ ["--scenario=" ++ scenario_file_path], files ++ [scenario_file_path])
    | none => (args, files)
  let args := match duration with
    | some d => if d = 0 then args else args ++ ["--duration=" ++ fmt d]
    | none => args
  let args := args ++ ["--log-level=" ++ logging_level.name]
  ⟨args, files⟩

/-- Argument list passed to `Popen` by `get_model_description`
(osp_command_line_interface.py, lines 144-153). -/
def get_model_description_args (cosim : String) (file_path_fmu : String) : List String :=
  let mode := "inspect"
  [cosim, mode, file_path_fmu]

/-- What one spawned subprocess writes to its two output streams. -/
structure SubprocessBehavior where
  stdout : String
  stderr : String
deriving DecidableEq, Repr

/-- `run_cli` (osp_command_line_interface.py, lines 172-182): spawns the
subprocess once and returns `(log, error)` with the captured stdout bytes
and the decoded stderr text. -/
def run_cli (proc : SubprocessBehavior) : String × String :=
  (proc.stdout, proc.stderr)

/-- The components of the Python tuple built by the final statement
`return result, log` of `run_cosimulation`: the dictionary of parsed csv
results (modelled by the simulator names it maps) or a text value. -/
inductive PyRetVal
  | resultDict (simulator_names : List String)
  | text (s : String)
deriving DecidableEq, Repr

/-- The tuple `return result, log` builds (osp_command_line_interface.py,
line 369): exactly two components, and neither is the captured stderr. -/
def run_cosimulation_returned_tuple (result_names : List String) (log : String) :
    List PyRetVal :=
  [.resultDict result_names, .text log]

/-- Python tuple unpacking `a, b, c = t`: succeeds exactly on a 3-tuple,
otherwise raises a ValueError. -/
def unpack3 {α : Type} : List α → Except PyErr (α × α × α)
  | [a, b, c] => .ok (a, b, c)
  | l => .error (.valueError ("not enough values to unpack (expected 3, got " ++
      toString l.length ++ ")"))

/-- One full execution of `run_cosimulation`: the subprocess invocations it
performs and the tuple it returns.  `result_names` stands for the simulator
names recovered from the csv files and `log` for the final log text (the
stream contents when `logging_stream` is true, the empty string
otherwise). -/
structure RunCosimulationModel where
  invocations : List (List String)
  returned_tuple : List PyRetVal
deriving DecidableEq, Repr

/-- `run_cosimulation` (osp_command_line_interface.py, lines 262-369): the
binary is invoked once, via `run_cli`, with the prepared argument list; the
captured stderr only reaches `logger.info` and the returned tuple is
`(result, log)`. -/
def run_cosimulation_exec (cosim : String) (path_to_system_structure : String)
    (logging_config : Option OspLoggingConfiguration) (output_file_path : Option String)
    (scenario_file : Option String) (duration : Option Rat)
    (logging_level : LoggingLevel) (logging_stream : Bool) (fmt : Rat → String)
    (proc : SubprocessBehavior) (result_names : List String)
    (stream_contents : String) : RunCosimulationModel :=
  let invocation := run_cosimulation_invocation cosim path_to_system_structure logging_config
      output_file_path scenario_file duration logging_level fmt
  let (_stdout_log, _error) := run_cli proc
  let log := if logging_stream then stream_contents else ""
  { invocations := [invocation.args]
    returned_tuple := run_cosimulation_returned_tuple result_names log }

/-- The first step of `SimulationConfiguration.run_simulation`
(simulation.py, line 521) applied to what `run_cosimulation` returns:
`result, log, error = run_cosimulation(...)`. -/
def run_simulation_unpack (result_names : List String) (log : String) :
    Except PyErr (PyRetVal × PyRetVal × PyRetVal) :=
  unpack3 (run_cosimulation_returned_tuple result_names log)

/-- The claim's validity condition for a source endpoint of a variable
connection: it names an existing component (the first with that name is
looked up, as the source does) and one of the output variables of that
component's model. -/
def endpoint_has_valid_output (cfg : SimulationConfiguration)
    (endpoint : OspVariableEndpoint) : Bool :=
  match cfg.components.find? (fun component => component.name == endpoint.simulator) with
  | some component => decide (endpoint.name ∈ component.fmu.get_output_names)
  | none => false

/-- The claim's validity condition for a target endpoint of a variable
connection: it names an existing component and one of the input variables
of that component's model. -/
def endpoint_has_valid_input (cfg : SimulationConfiguration)
    (endpoint : OspVariableEndpoint) : Bool :=
  match cfg.components.find? (fun component => component.name == endpoint.simulator) with
  | some component => decide (endpoint.name ∈ component.fmu.get_input_names)
  | none => false

/-- The claim's uniqueness condition for a target endpoint: no existing
variable connection already has this exact endpoint as its target. -/
def input_target_is_free (cfg : SimulationConfiguration)
    (endpoint : OspVariableEndpoint) : Bool :=
  decide (∀ conn ∈ cfg.system_structure.VariableConnections, conn.target ≠ endpoint)

/-- The validity condition checked by `add_logging_variable`: the component
name is among the component names, and the variable is among the inputs,
outputs, parameters or other variables of the (first) component with that
name. -/
def logging_variable_is_valid (cfg : SimulationConfiguration)
    (component_name variable_name : String) : Bool :=
  decide (component_name ∈ cfg.get_component_names) &&
    match cfg.components.find? (fun component => component.name == component_name) with
    | some comp => decide (variable_name ∈ comp.fmu.get_input_names ++
        comp.fmu.get_output_names ++ comp.fmu.get_parameter_names ++
        comp.fmu.get_other_variable_names)
    | none => false

/-- The (component, variable) key of an initial value. -/
def initial_value_key (init_value : InitialValues) : String × String :=
  (init_value.component, init_value.var)

/-- The (component, variable) pairs of the configuration's initial values
are pairwise distinct. -/
def initial_values_keys_nodup (cfg : SimulationConfiguration) : Prop :=
  (cfg.initial_values.map initial_value_key).Nodup

/-- The per-component entries of the logging configuration (empty when no
logging configuration exists or its `simulators` attribute is `None`). -/
def logging_simulators (cfg : SimulationConfiguration) : List OspSimulatorForLogging :=
  match cfg.logging_config with
  | some logging_config => logging_config.simulators.getD []
  | none => []

/-- The names of the logging configuration's per-component entries are
pairwise distinct. -/
def logging_names_nodup (cfg : SimulationConfiguration) : Prop :=
  ((logging_simulators cfg).map (·.name)).Nodup

/-- One call in a sequence of `add_component` / `delete_component` calls. -/
inductive ComponentOp
  | add (name : String) (fmu : FMU) (stepSize : Option Rat) (rel_path_to_fmu : String)
  | delete (name : String)

/-- Resulting configuration state of one `add_component` /
`delete_component` call (whether it raised or not). -/
def apply_component_op (cfg : SimulationConfiguration) : ComponentOp → SimulationConfiguration
  | .add name fmu stepSize rel_path => (cfg.add_component name fmu stepSize rel_path).2
  | .delete name => (cfg.delete_component name).2

/-- Configuration state after a sequence of `add_component` /
`delete_component` calls. -/
def apply_component_ops (cfg : SimulationConfiguration) (ops : List ComponentOp) :
    SimulationConfiguration :=
  ops.foldl apply_component_op cfg

/-- Configuration state after a sequence of `add_update_initial_value`
calls, each given as (component name, variable name, value). -/
def apply_initial_value_calls (cfg : SimulationConfiguration)
    (calls : List (String × String × PyVal)) : SimulationConfiguration :=
  calls.foldl (fun cfg call => (cfg.add_update_initial_value call.1 call.2.1 call.2.2).2) cfg

/-- Configuration state after a sequence of `add_logging_variable` calls,
each given as (component name, variable name, decimation factor). -/
def apply_logging_calls (cfg : SimulationConfiguration)
    (calls : List (String × String × Int)) : SimulationConfiguration :=
  calls.foldl (fun cfg call => (cfg.add_logging_variable call.1 call.2.1 call.2.2).2) cfg

/-- A small concrete FMU, used to instantiate proved theorems on concrete
inputs. -/
def sample_fmu : FMU :=
  { name := "model", fmu_file := "model.fmu",
    parameters := [⟨"p"⟩], inputs := [⟨"i"⟩], outputs := [⟨"o"⟩],
    other_variables := [⟨"w"⟩] }

/-- A configuration holding one component named "a" over `sample_fmu`. -/
def sample_configuration : SimulationConfiguration :=
  { components := [⟨"a", sample_fmu⟩], initial_values := [], functions := [],
    system_structure :=
      { Simulators := [⟨"a", "model.fmu", none, "", []⟩], VariableConnections := [],
        VariableGroupConnections := [], Functions := [], BaseStepSize := none },
    logging_config := none }

/-- A configuration seeded (through the constructor's `initial_values`
argument) with two initial values for the same (component, variable)
pair. -/
def duplicated_initial_values_configuration : SimulationConfiguration :=
  { sample_configuration with
    initial_values := [⟨"a", "p", .pyInt 1⟩, ⟨"a", "p", .pyInt 2⟩] }

/-- Whether `needle` occurs as a contiguous substring of `haystack`
(Python's `needle in haystack` for strings). -/
def contains_chars (needle : List Char) : List Char → Bool
  | [] => needle.isEmpty
  | c :: rest => needle.isPrefixOf (c :: rest) || contains_chars needle rest

/-- C8: for every Python bool value b, `convert_value_to_osp_type(b)` with
no `type_var` returns an `OspInteger` wrapping that bool, never an
`OspBoolean`: since bool is a subclass of int, the `isinstance(value, int)`
branch matches first and the `OspBoolean` branch is unreachable for every
input. -/
theorem convert_value_to_osp_type_bool_is_integer :
    (∀ b : Bool, convert_value_to_osp_type (.pyBool b) = some (.OspInteger (.pyBool b)))
    ∧ (∀ value : PyVal,
        ((convert_value_to_osp_type value).all fun osp => !osp.is_boolean) = true) := by
  constructor
  · intro b
    rfl
  · intro value
    cases value <;> rfl

/-- C9: for a `function_type` that is none of the three `FunctionType`
members, `add_function` returns Python `None` without raising, without
appending to the functions list, and without modifying the system
structure. -/
theorem add_function_unknown_type_is_noop :
    ∀ (cfg : SimulationConfiguration) (function_name : String) (kwargs : AddFunctionKwargs),
      (cfg.add_function function_name .otherValue kwargs).1 = .ok none
      ∧ ((cfg.add_function function_name .otherValue kwargs).2).functions = cfg.functions
      ∧ ((cfg.add_function function_name .otherValue kwargs).2).system_structure =
          cfg.system_structure := by
  intro cfg function_name kwargs
  exact ⟨rfl, rfl, rfl⟩

/-- C1: `run_cosimulation` invokes the external binary exactly once and
captures its stderr, but the tuple it returns is the pair (result, log), so
the three-element unpacking `result, log, error = run_cosimulation(...)`
performed by `SimulationConfiguration.run_simulation` raises a ValueError
on every invocation instead of delivering the captured stderr text. -/
theorem run_cosimulation_returns_pair_not_triple :
    ∀ (cosim path : String) (logging_config : Option OspLoggingConfiguration)
      (output_file_path : Option String) (scenario_file : Option String)
      (duration : Option Rat) (logging_level : LoggingLevel) (logging_stream : Bool)
      (fmt : Rat → String) (proc : SubprocessBehavior) (result_names : List String)
      (stream_contents log : String),
      (run_cosimulation_exec cosim path logging_config output_file_path scenario_file
          duration logging_level logging_stream fmt proc result_names
          stream_contents).invocations.length = 1
      ∧ (run_cosimulation_exec cosim path logging_config output_file_path scenario_file
          duration logging_level logging_stream fmt proc result_names
          stream_contents).returned_tuple.length = 2
      ∧ run_simulation_unpack result_names log =
          .error (.valueError "not enough values to unpack (expected 3, got 2)") := by
  intro cosim path logging_config output_file_path scenario_file duration logging_level
    logging_stream fmt proc result_names stream_contents log
  refine ⟨rfl, rfl, ?_⟩
  simp only [run_simulation_unpack, run_cosimulation_returned_tuple, unpack3,
    List.length_cons, List.length_nil]
  decide

/-- C6, counterexample: with a logging configuration given, the argument
list `run_cosimulation` builds contains no flag naming the logging
configuration file; the file (LogConfig.xml) is only written into the
system structure directory before the invocation. -/
theorem run_cosimulation_args_no_logging_flag_counterexample :
    (run_cosimulation_invocation "cosim" "sys" (some ⟨none⟩) none none none .warning
        (fun _ => "")).args = ["cosim", "run", "sys", "--output-dir=sys", "--log-level=warning"]
    ∧ (run_cosimulation_invocation "cosim" "sys" (some ⟨none⟩) none none none .warning
        (fun _ => "")).files_written = ["sys/LogConfig.xml"]
    ∧ ∀ a ∈ (run_cosimulation_invocation "cosim" "sys" (some ⟨none⟩) none none none .warning
        (fun _ => "")).args, contains_chars "LogConfig.xml".toList a.toList = false := by
  refine ⟨rfl, rfl, ?_⟩
  decide

/-- C6, amended: the three wrappers always place the binary, the positional
mode argument (run-single / run / inspect) and the positional path first,
followed by the option flags as the claim lists them, except that a logging
configuration adds no flag: it only causes LogConfig.xml to be written into
the system structure directory (and the scenario file is likewise written
before its `--scenario=` flag is added). -/
theorem cosim_cli_argument_structure :
    ∀ (cosim fmu_path sys_path : String) (initial_values : List (String × String))
      (output_file_path : Option String) (duration step_size : Option Rat)
      (fmt : Rat → String) (logging_config : Option OspLoggingConfiguration)
      (scenario_file : Option String) (logging_level : LoggingLevel),
      run_single_fmu_args cosim fmu_path initial_values output_file_path duration step_size fmt
        = [cosim, "run-single", fmu_path]
          ++ initial_values.map (fun kv => kv.1 ++ "=" ++ kv.2)
          ++ ["--output-file=" ++ output_file_path.getD "model-output.csv"]
          ++ (match duration with
              | some d => if d = 0 then [] else ["-d" ++ fmt d]
              | none => [])
          ++ (match step_size with
              | some d => if d = 0 then [] else ["-s" ++ fmt d]
              | none => [])
      ∧ (run_cosimulation_invocation cosim sys_path logging_config output_file_path
            scenario_file duration logging_level fmt).args
        = [cosim, "run", sys_path]
          ++ ["--output-dir=" ++ output_file_path.getD sys_path]
          ++ (match scenario_file with
              | some file_name => ["--scenario=" ++ path_join sys_path file_name]
              | none => [])
          ++ (match duration with
              | some d => if d = 0 then [] else ["--duration=" ++ fmt d]
              | none => [])
          ++ ["--log-level=" ++ logging_level.name]
      ∧ (run_cosimulation_invocation cosim sys_path logging_config output_file_path
            scenario_file duration logging_level fmt).files_written
        = (match logging_config with
           | some _ => [path_join sys_path "LogConfig.xml"]
           | none => [])
          ++ (match scenario_file with
              | some file_name => [path_join sys_path file_name]
              | none => [])
      ∧ get_model_description_args cosim fmu_path = [cosim, "inspect", fmu_path] := by
  intro cosim fmu_path sys_path initial_values output_file_path duration step_size fmt
    logging_config scenario_file logging_level
  refine ⟨?_, ?_, ?_, rfl⟩
  · simp only [run_single_fmu_args]
    cases duration <;> cases step_size <;>
      simp [List.append_assoc] <;> split_ifs <;> simp
  · simp only [run_cosimulation_invocation]
    cases scenario_file <;> cases duration <;>
      simp [List.append_assoc] <;> split_ifs <;> simp
  · simp only [run_cosimulation_invocation]
    cases scenario_file <;> cases logging_config <;> simp

theorem strip_trailing_sep_concat (sep : Char) (s : List Char) :
    strip_trailing_sep sep (s ++ [sep]) = s := by
  unfold strip_trailing_sep
  rw [List.getLast?_concat, if_pos rfl, List.dropLast_concat]

theorem strip_trailing_sep_of_ne (sep : Char) (s : List Char) (h : s.getLast? ≠ some sep) :
    strip_trailing_sep sep s = s := by
  unfold strip_trailing_sep
  rw [if_neg h]

theorem getLast?_append_sep_cons (sep : Char) (s sub : List Char) (h : sub ≠ []) :
    (s ++ sep :: sub).getLast? = sub.getLast? := by
  rw [List.append_cons, List.getLast?_append_of_ne_nil _ h]

/-- C5, counterexample: with `path_to_sys_struct = "a/b"` extending
`path_to_deploy = "a"` by the relative subpath `"b"`, which contains no
path separator, the function returns `"../"` and not the empty string that
`'../'` repeated zero times would give. -/
theorem get_fmu_rel_path_depth_counterexample :
    ("b".toList).count '/' = 0
    ∧ get_fmu_rel_path '/' "a".toList ("a".toList ++ '/' :: "b".toList) = "../".toList
    ∧ "../".toList ≠ repeat_chars "../".toList (("b".toList).count '/') := by
  refine ⟨rfl, rfl, ?_⟩
  decide

/-- C5, amended: `get_fmu_rel_path` is a deterministic function of its two
arguments; on equal paths it returns the empty string; when the deploy path
extends the system structure path by a separator and a relative subpath, it
returns that subpath with separators replaced by '/' and a trailing '/';
when the system structure path extends the deploy path by a separator and a
relative subpath containing k separators, it returns '../' repeated k+1
times (once per path component of the extension, not k times as stated);
and a single trailing separator on either argument (added to a path not
already ending in one) does not change the result. -/
theorem get_fmu_rel_path_characterization :
    ∀ (sep : Char) (path d s sub : List Char),
      get_fmu_rel_path sep path path = []
      ∧ (s.getLast? ≠ some sep → sub.getLast? ≠ some sep → sub ≠ [] →
          get_fmu_rel_path sep (s ++ sep :: sub) s = replace_sep sep sub ++ ['/'])
      ∧ (d.getLast? ≠ some sep → sub.getLast? ≠ some sep → sub ≠ [] →
          get_fmu_rel_path sep d (d ++ sep :: sub) =
            repeat_chars "../".toList (sub.count sep + 1))
      ∧ (d.getLast? ≠ some sep →
          get_fmu_rel_path sep (d ++ [sep]) s = get_fmu_rel_path sep d s)
      ∧ (s.getLast? ≠ some sep →
          get_fmu_rel_path sep d (s ++ [sep]) = get_fmu_rel_path sep d s) := by
  intro sep path d s sub
  refine ⟨?_, ?_, ?_, ?_, ?_⟩
  · simp [get_fmu_rel_path, List.drop_length, replace_sep]
  · intro hs hsub hne
    unfold get_fmu_rel_path
    rw [strip_trailing_sep_of_ne sep s hs,
      strip_trailing_sep_of_ne sep (s ++ sep :: sub)
        (by rw [getLast?_append_sep_cons sep s sub hne]; exact hsub)]
    have hlen : s.length ≤ (s ++ sep :: sub).length := by
      simp [List.length_append]
    rw [if_pos hlen, List.drop_left s (sep :: sub)]
    have hrep : replace_sep sep (sep :: sub) = '/' :: replace_sep sep sub := by
      simp [replace_sep]
    rw [hrep]
    simp only [List.drop_one, List.tail_cons]
    rw [if_pos (by simpa [replace_sep] using List.length_pos.mpr hne)]
  · intro hd hsub hne
    unfold get_fmu_rel_path
    rw [strip_trailing_sep_of_ne sep d hd,
      strip_trailing_sep_of_ne sep (d ++ sep :: sub)
        (by rw [getLast?_append_sep_cons sep d sub hne]; exact hsub)]
    have hlen : ¬ (d ++ sep :: sub).length ≤ d.length := by
      simp [List.length_append]
    rw [if_neg hlen, List.drop_left d (sep :: sub)]
    show repeat_chars "../".toList ((sep :: sub).count sep) = _
    rw [List.count_cons_self]
  · intro hd
    unfold get_fmu_rel_path
    rw [strip_trailing_sep_concat sep d, strip_trailing_sep_of_ne sep d hd]
  · intro hs
    unfold get_fmu_rel_path
    rw [strip_trailing_sep_concat sep s, strip_trailing_sep_of_ne sep s hs]

/-- Instantiation of `get_fmu_rel_path_characterization` on concrete
paths. -/
theorem get_fmu_rel_path_characterization_witness :
    get_fmu_rel_path '/' "root".toList "root".toList = []
    ∧ get_fmu_rel_path '/' ("root".toList ++ '/' :: "x".toList) "root".toList = "x/".toList
    ∧ get_fmu_rel_path '/' "a".toList ("a".toList ++ '/' :: "b".toList) =
        repeat_chars "../".toList 1
    ∧ get_fmu_rel_path '/' ("p".toList ++ ['/']) "q".toList =
        get_fmu_rel_path '/' "p".toList "q".toList
    ∧ get_fmu_rel_path '/' "p".toList ("q".toList ++ ['/']) =
        get_fmu_rel_path '/' "p".toList "q".toList := by
  refine ⟨(get_fmu_rel_path_characterization '/' "root".toList "p".toList "root".toList
      "x".toList).1, ?_, ?_, ?_, ?_⟩
  · exact (get_fmu_rel_path_characterization '/' "root".toList "p".toList "root".toList
      "x".toList).2.1 (by decide) (by decide) (by decide)
  · have h := (get_fmu_rel_path_characterization '/' "root".toList "a".toList "root".toList
      "b".toList).2.2.1 (by decide) (by decide) (by decide)
    simpa using h
  · exact (get_fmu_rel_path_characterization '/' "root".toList "p".toList "q".toList
      "x".toList).2.2.2.1 (by decide)
  · exact (get_fmu_rel_path_characterization '/' "root".toList "p".toList "q".toList
      "x".toList).2.2.2.2 (by decide)

/-- C2: `add_update_initial_value` succeeds only when the variable is among
the parameter names or the input names of the named component's model;
when the variable check fails (or the component does not exist) it raises a
TypeError and the configuration, including its initial values and system
structure, is exactly the unmodified input. -/
theorem add_update_initial_value_validates :
    ∀ (cfg : SimulationConfiguration) (component_name var_name : String) (value : PyVal),
      (∀ iv cfg',
        cfg.add_update_initial_value component_name var_name value = (.ok iv, cfg') →
        ∃ component, cfg.get_component_by_name component_name = .ok component
          ∧ (var_name ∈ component.fmu.get_parameter_names
             ∨ var_name ∈ component.fmu.get_input_names))
      ∧ (∀ component, cfg.get_component_by_name component_name = .ok component →
          var_name ∉ component.fmu.get_parameter_names →
          var_name ∉ component.fmu.get_input_names →
          ∃ msg, cfg.add_update_initial_value component_name var_name value =
            (.error (.typeError msg), cfg))
      ∧ (∀ msg, cfg.get_component_by_name component_name = .error (.typeError msg) →
          ∃ m, cfg.add_update_initial_value component_name var_name value =
            (.error (.typeError m), cfg)) := by
  intro cfg component_name var_name value
  refine ⟨?_, ?_, ?_⟩
  · intro iv cfg' h
    cases hc : cfg.get_component_by_name component_name with
    | error e =>
      simp only [SimulationConfiguration.add_update_initial_value, hc] at h
      simp at h
    | ok component =>
      refine ⟨component, rfl, ?_⟩
      by_cases hv : var_name ∉ component.fmu.get_parameter_names ∧
          var_name ∉ component.fmu.get_input_names
      · simp only [SimulationConfiguration.add_update_initial_value, hc, if_pos hv] at h
        simp at h
      · tauto
  · intro component hc h1 h2
    refine ⟨"No variable is found in the inputs / parameters of " ++
      "the model with the name " ++ var_name ++ ". You cannot set " ++
      "initial value for outputs.", ?_⟩
    simp only [SimulationConfiguration.add_update_initial_value, hc, if_pos (And.intro h1 h2)]
  · intro msg hc
    refine ⟨msg, ?_⟩
    simp only [SimulationConfiguration.add_update_initial_value, hc]

/-- Instantiation of `add_update_initial_value_validates` on a concrete
configuration: setting the variable "z", which is neither a parameter nor
an input of the component's model, raises a TypeError and leaves the
configuration unchanged. -/
theorem add_update_initial_value_validates_witness :
    ∃ msg, sample_configuration.add_update_initial_value "a" "z" (.pyInt 1) =
      (.error (.typeError msg), sample_configuration) :=
  (add_update_initial_value_validates sample_configuration "a" "z" (.pyInt 1)).2.1
    ⟨"a", sample_fmu⟩ (by decide) (by decide) (by decide)

theorem components_names_nodup_add (cfg : SimulationConfiguration) (name : String)
    (fmu : FMU) (stepSize : Option Rat) (rel_path : String)
    (h : (cfg.components.map (·.name)).Nodup) :
    (((cfg.add_component name fmu stepSize rel_path).2).components.map (·.name)).Nodup := by
  by_cases hm : name ∈ cfg.get_component_names
  · simp only [SimulationConfiguration.add_component, if_neg (not_not_intro hm)]
    exact h
  · simp only [SimulationConfiguration.add_component, if_pos hm]
    simp only [List.map_append, List.map_cons, List.map_nil]
    rw [(List.perm_append_singleton _ _).nodup_iff, List.nodup_cons]
    exact ⟨by simpa [SimulationConfiguration.get_component_names] using hm, h⟩

theorem components_names_nodup_delete (cfg : SimulationConfiguration) (component_name : String)
    (h : (cfg.components.map (·.name)).Nodup) :
    (((cfg.delete_component component_name).2).components.map (·.name)).Nodup := by
  by_cases hm : component_name ∈ cfg.get_component_names
  · cases hg : cfg.get_component_by_name component_name with
    | error e =>
      simp only [SimulationConfiguration.delete_component, if_neg (not_not_intro hm), hg]
      exact h
    | ok component =>
      simp only [SimulationConfiguration.delete_component, if_neg (not_not_intro hm), hg]
      exact h.sublist ((List.erase_sublist component cfg.components).map (·.name))
  · simp only [SimulationConfiguration.delete_component, if_pos hm]
    exact h

theorem components_names_nodup_op (cfg : SimulationConfiguration) (op : ComponentOp)
    (h : (cfg.components.map (·.name)).Nodup) :
    ((apply_component_op cfg op).components.map (·.name)).Nodup := by
  cases op with
  | add name fmu stepSize rel_path =>
    exact components_names_nodup_add cfg name fmu stepSize rel_path h
  | delete name =>
    exact components_names_nodup_delete cfg name h

theorem components_names_nodup_ops (ops : List ComponentOp) :
    ∀ cfg : SimulationConfiguration, (cfg.components.map (·.name)).Nodup →
      ((apply_component_ops cfg ops).components.map (·.name)).Nodup := by
  induction ops with
  | nil => intro cfg h; exact h
  | cons op rest ih =>
    intro cfg h
    exact ih (apply_component_op cfg op) (components_names_nodup_op cfg op h)

/-- C4: `add_component` appends a new component and returns it exactly when
the name is fresh, and raises a TypeError leaving the configuration
unchanged otherwise; consequently, after every sequence of `add_component`
and `delete_component` calls starting from the empty configuration the
component names are pairwise distinct. -/
theorem add_component_unique_name_key :
    (∀ (cfg : SimulationConfiguration) (name : String) (fmu : FMU)
        (stepSize : Option Rat) (rel_path : String),
      (name ∉ cfg.get_component_names →
        (cfg.add_component name fmu stepSize rel_path).1 = .ok ⟨name, fmu⟩
        ∧ ((cfg.add_component name fmu stepSize rel_path).2).components =
            cfg.components ++ [⟨name, fmu⟩])
      ∧ (name ∈ cfg.get_component_names →
          cfg.add_component name fmu stepSize rel_path =
            (.error (.typeError "The name duplicates with the existing components."), cfg)))
    ∧ (∀ ops : List ComponentOp,
        ((apply_component_ops empty_simulation_configuration ops).components.map
          (·.name)).Nodup) := by
  constructor
  · intro cfg name fmu stepSize rel_path
    constructor
    · intro h
      constructor
      · simp only [SimulationConfiguration.add_component, if_pos h]
      · simp only [SimulationConfiguration.add_component, if_pos h]
    · intro h
      simp only [SimulationConfiguration.add_component, if_neg (not_not_intro h)]
  · intro ops
    exact components_names_nodup_ops ops empty_simulation_configuration (by simp
      [empty_simulation_configuration])

/-- Instantiation of `add_component_unique_name_key` on concrete inputs:
adding a fresh name succeeds and returns the component, adding a duplicate
name raises a TypeError and leaves the configuration unchanged. -/
theorem add_component_unique_name_key_witness :
    (sample_configuration.add_component "b" sample_fmu none "").1 = .ok ⟨"b", sample_fmu⟩
    ∧ sample_configuration.add_component "a" sample_fmu none "" =
      (.error (.typeError "The name duplicates with the existing components."),
        sample_configuration) :=
  ⟨((add_component_unique_name_key.1 sample_configuration "b" sample_fmu none "").1
      (by decide)).1,
    (add_component_unique_name_key.1 sample_configuration "a" sample_fmu none "").2
      (by decide)⟩

theorem update_first_add_variable_names (component_name variable_name : String)
    (l : List OspSimulatorForLogging) :
    (update_first (fun sim => sim.name == component_name)
      (fun sim => sim.add_variable variable_name) l).map (·.name) = l.map (·.name) := by
  induction l with
  | nil => rfl
  | cons x xs ih =>
    simp only [update_first]
    split
    · simp [OspSimulatorForLogging.add_variable]
    · simp [ih]

theorem logging_simulators_getD (cfg : SimulationConfiguration) :
    (cfg.logging_config.getD ⟨none⟩).simulators.getD [] = logging_simulators cfg := by
  unfold logging_simulators
  cases cfg.logging_config with
  | none => rfl
  | some lc => rfl

theorem find_component_of_mem (cfg : SimulationConfiguration) (c : String)
    (hm : c ∈ cfg.get_component_names) :
    ∃ comp, cfg.components.find? (fun component => component.name == c) = some comp := by
  rw [← Option.isSome_iff_exists]
  apply List.find?_isSome.mpr
  obtain ⟨comp, hmem, hname⟩ := List.mem_map.mp hm
  exact ⟨comp, hmem, by simp [hname]⟩

theorem add_logging_variable_error_of_invalid (cfg : SimulationConfiguration)
    (c v : String) (df : Int) (h : logging_variable_is_valid cfg c v = false) :
    ∃ msg, cfg.add_logging_variable c v df = (.error (.typeError msg), cfg) := by
  by_cases hm : c ∈ cfg.get_component_names
  · obtain ⟨comp, hcomp⟩ := find_component_of_mem cfg c hm
    have hv : v ∉ comp.fmu.get_input_names ++ comp.fmu.get_output_names ++
        comp.fmu.get_parameter_names ++ comp.fmu.get_other_variable_names := by
      simp only [logging_variable_is_valid, hcomp, hm] at h
      simpa using h
    have hget : cfg.get_component_by_name c = .ok comp := by
      simp only [SimulationConfiguration.get_component_by_name, hcomp]
    refine ⟨"No variable or parameter is found with the name.", ?_⟩
    simp only [SimulationConfiguration.add_logging_variable, if_neg (not_not_intro hm), hget,
      if_pos hv]
  · refine ⟨"No component is found with the name.", ?_⟩
    simp only [SimulationConfiguration.add_logging_variable, if_pos hm]

theorem add_logging_variable_ok_of_valid (cfg : SimulationConfiguration)
    (c v : String) (df : Int) (h : logging_variable_is_valid cfg c v = true) :
    (cfg.add_logging_variable c v df).1 = .ok true := by
  simp only [logging_variable_is_valid, Bool.and_eq_true] at h
  have hm : c ∈ cfg.get_component_names := of_decide_eq_true h.1
  obtain ⟨comp, hcomp⟩ := find_component_of_mem cfg c hm
  have hv : v ∈ comp.fmu.get_input_names ++ comp.fmu.get_output_names ++
      comp.fmu.get_parameter_names ++ comp.fmu.get_other_variable_names := by
    have := h.2
    rw [hcomp] at this
    exact of_decide_eq_true this
  have hget : cfg.get_component_by_name c = .ok comp := by
    simp only [SimulationConfiguration.get_component_by_name, hcomp]
  simp only [SimulationConfiguration.add_logging_variable, if_neg (not_not_intro hm), hget,
    if_neg (not_not_intro hv)]
  split <;> rfl

theorem logging_names_nodup_preserved (cfg : SimulationConfiguration)
    (c v : String) (df : Int) (h : logging_names_nodup cfg) :
    logging_names_nodup (cfg.add_logging_variable c v df).2 := by
  simp only [SimulationConfiguration.add_logging_variable]
  split
  · exact h
  · split
    · exact h
    · split
      · exact h
      · split
        · rename_i hfound
          show (((update_first (fun sim => sim.name == c)
            (fun sim => sim.add_variable v)
            ((cfg.logging_config.getD ⟨none⟩).simulators.getD [])).map (·.name)).Nodup)
          rw [update_first_add_variable_names, logging_simulators_getD]
          exact h
        · rename_i hnone
          show (((update_first (fun sim => sim.name == c)
            (fun sim => sim.add_variable v)
            ((cfg.logging_config.getD ⟨none⟩).simulators.getD [] ++
              [⟨c, df, []⟩])).map (·.name)).Nodup)
          rw [update_first_add_variable_names, List.map_append, logging_simulators_getD]
          have hnone' : List.find? (fun sim => sim.name == c) (logging_simulators cfg) =
              none := by
            rw [← logging_simulators_getD]
            exact hnone
          have hnotmem : c ∉ (logging_simulators cfg).map (·.name) := by
            intro hmem
            obtain ⟨sim, hsim, hname⟩ := List.mem_map.mp hmem
            have := List.find?_eq_none.mp hnone' sim hsim
            simp [hname] at this
          simp only [List.map_cons, List.map_nil]
          rw [(List.perm_append_singleton _ _).nodup_iff, List.nodup_cons]
          exact ⟨hnotmem, h⟩

theorem countP_name_eq_count (c : String) (L : List OspSimulatorForLogging) :
    L.countP (fun sim => sim.name == c) = (L.map (·.name)).count c := by
  rw [List.count, List.countP_map]
  rfl

theorem logging_count_one_of_valid (cfg : SimulationConfiguration)
    (c v : String) (df : Int)
    (hval : logging_variable_is_valid cfg c v = true) (h : logging_names_nodup cfg) :
    (logging_simulators (cfg.add_logging_variable c v df).2).countP
      (fun sim => sim.name == c) = 1 := by
  simp only [logging_variable_is_valid, Bool.and_eq_true] at hval
  have hm : c ∈ cfg.get_component_names := of_decide_eq_true hval.1
  obtain ⟨comp, hcomp⟩ := find_component_of_mem cfg c hm
  have hv : v ∈ comp.fmu.get_input_names ++ comp.fmu.get_output_names ++
      comp.fmu.get_parameter_names ++ comp.fmu.get_other_variable_names := by
    have hval2 := hval.2
    rw [hcomp] at hval2
    exact of_decide_eq_true hval2
  have hget : cfg.get_component_by_name c = .ok comp := by
    simp only [SimulationConfiguration.get_component_by_name, hcomp]
  simp only [SimulationConfiguration.add_logging_variable, if_neg (not_not_intro hm), hget,
    if_neg (not_not_intro hv)]
  split
  · rename_i s0 hfound
    show (update_first (fun sim => sim.name == c) (fun sim => sim.add_variable v)
        ((cfg.logging_config.getD ⟨none⟩).simulators.getD [])).countP
        (fun sim => sim.name == c) = 1
    rw [countP_name_eq_count, update_first_add_variable_names, logging_simulators_getD]
    have hfound' : List.find? (fun sim => sim.name == c) (logging_simulators cfg) =
        some s0 := by
      rw [← logging_simulators_getD]
      exact hfound
    have hs0 : s0 ∈ logging_simulators cfg := List.mem_of_find?_eq_some hfound'
    have hs0name : s0.name = c := by
      have := List.find?_some hfound'
      simpa using this
    exact List.count_eq_one_of_mem h (List.mem_map.mpr ⟨s0, hs0, hs0name⟩)
  · rename_i hnone
    show (update_first (fun sim => sim.name == c) (fun sim => sim.add_variable v)
        ((cfg.logging_config.getD ⟨none⟩).simulators.getD [] ++ [⟨c, df, []⟩])).countP
        (fun sim => sim.name == c) = 1
    rw [countP_name_eq_count, update_first_add_variable_names, List.map_append,
      logging_simulators_getD]
    have hnone' : List.find? (fun sim => sim.name == c) (logging_simulators cfg) = none := by
      rw [← logging_simulators_getD]
      exact hnone
    have hnotmem : c ∉ (logging_simulators cfg).map (·.name) := by
      intro hmem
      obtain ⟨sim, hsim, hname⟩ := List.mem_map.mp hmem
      have := List.find?_eq_none.mp hnone' sim hsim
      simp [hname] at this
    rw [List.count_append, List.count_eq_zero_of_not_mem hnotmem]
    simp

theorem logging_names_nodup_calls (calls : List (String × String × Int)) :
    ∀ cfg : SimulationConfiguration, logging_names_nodup cfg →
      logging_names_nodup (apply_logging_calls cfg calls) := by
  induction calls with
  | nil => intro cfg h; exact h
  | cons call rest ih =>
    intro cfg h
    exact ih ((cfg.add_logging_variable call.1 call.2.1 call.2.2).2)
      (logging_names_nodup_preserved cfg call.1 call.2.1 call.2.2 h)

/-- C7: `add_logging_variable` raises a TypeError unless the component
exists and the variable is among the inputs, outputs, parameters or other
variables of its model; on success it returns True, and the logging
configuration keeps at most one per-component entry: a successful call
leaves exactly one entry for the component (holding its logged variables
and decimation factor), entry names stay pairwise distinct, and this holds
across every sequence of calls. -/
theorem add_logging_variable_validates_and_unique :
    ∀ (cfg : SimulationConfiguration) (component_name variable_name : String)
      (decimation_factor : Int),
      (logging_variable_is_valid cfg component_name variable_name = false →
        ∃ msg, cfg.add_logging_variable component_name variable_name decimation_factor =
          (.error (.typeError msg), cfg))
      ∧ (logging_variable_is_valid cfg component_name variable_name = true →
          (cfg.add_logging_variable component_name variable_name decimation_factor).1 =
            .ok true)
      ∧ (logging_names_nodup cfg →
          logging_names_nodup (cfg.add_logging_variable component_name variable_name
            decimation_factor).2)
      ∧ (logging_variable_is_valid cfg component_name variable_name = true →
          logging_names_nodup cfg →
          (logging_simulators (cfg.add_logging_variable component_name variable_name
            decimation_factor).2).countP (fun sim => sim.name == component_name) = 1)
      ∧ (∀ calls : List (String × String × Int), logging_names_nodup cfg →
          logging_names_nodup (apply_logging_calls cfg calls)) := by
  intro cfg c v df
  exact ⟨add_logging_variable_error_of_invalid cfg c v df,
    add_logging_variable_ok_of_valid cfg c v df,
    logging_names_nodup_preserved cfg c v df,
    logging_count_one_of_valid cfg c v df,
    fun calls h => logging_names_nodup_calls calls cfg h⟩

/-- Instantiation of `add_logging_variable_validates_and_unique` on a
concrete configuration: logging an existing variable succeeds and leaves
exactly one logging entry for the component; logging a variable of a
missing component raises a TypeError and leaves the configuration
unchanged. -/
theorem add_logging_variable_validates_and_unique_witness :
    (sample_configuration.add_logging_variable "a" "w" 1).1 = .ok true
    ∧ (logging_simulators (sample_configuration.add_logging_variable "a" "w" 1).2).countP
        (fun sim => sim.name == "a") = 1
    ∧ ∃ msg, sample_configuration.add_logging_variable "b" "w" 1 =
        (.error (.typeError msg), sample_configuration) :=
  ⟨(add_logging_variable_validates_and_unique sample_configuration "a" "w" 1).2.1 (by decide),
    (add_logging_variable_validates_and_unique sample_configuration "a" "w" 1).2.2.2.1
      (by decide) (by unfold logging_names_nodup; decide),
    (add_logging_variable_validates_and_unique sample_configuration "b" "w" 1).1 (by decide)⟩

theorem upsert_fresh_case (l : List InitialValues) (c v : String) (val : PyVal)
    (hnd : (l.map initial_value_key).Nodup)
    (hfind : l.find? (fun x => x.component == c && x.var == v) = none) :
    (l ++ [(⟨c, v, val⟩ : InitialValues)]).filter (fun x => x.component == c && x.var == v) = [(⟨c, v, val⟩ : InitialValues)]
    ∧ ((l ++ [(⟨c, v, val⟩ : InitialValues)]).map initial_value_key).Nodup := by
  have hall : ∀ x ∈ l, ¬ ((fun x => x.component == c && x.var == v) x = true) := by
    intro x hx
    have := List.find?_eq_none.mp hfind x hx
    simpa using this
  constructor
  · rw [List.filter_append, List.filter_eq_nil_iff.mpr hall]
    simp
  · rw [List.map_append]
    simp only [List.map_cons, List.map_nil]
    rw [(List.perm_append_singleton _ _).nodup_iff, List.nodup_cons]
    refine ⟨?_, hnd⟩
    intro hmem
    obtain ⟨x, hx, hkey⟩ := List.mem_map.mp hmem
    apply hall x hx
    have h1 : x.component = c := congrArg Prod.fst hkey
    have h2 : x.var = v := congrArg Prod.snd hkey
    simp [h1, h2]

theorem upsert_replace_case (l : List InitialValues) (c v : String) (val : PyVal)
    (old : InitialValues) (hnd : (l.map initial_value_key).Nodup)
    (hfind : l.find? (fun x => x.component == c && x.var == v) = some old) :
    ((l.erase old ++ [(⟨c, v, val⟩ : InitialValues)]).filter (fun x => x.component == c && x.var == v) =
      [(⟨c, v, val⟩ : InitialValues)])
    ∧ ((l.erase old ++ [(⟨c, v, val⟩ : InitialValues)]).map initial_value_key).Nodup := by
  have hold_mem : old ∈ l := List.mem_of_find?_eq_some hfind
  have hold_p := List.find?_some hfind
  have hold_key : initial_value_key old = (c, v) := by
    simp only [Bool.and_eq_true, beq_iff_eq] at hold_p
    simp [initial_value_key, hold_p.1, hold_p.2]
  have hperm : List.Perm l (old :: l.erase old) := List.perm_cons_erase hold_mem
  have hnd_cons : ((old :: l.erase old).map initial_value_key).Nodup :=
    ((hperm.map initial_value_key).nodup_iff).mp hnd
  simp only [List.map_cons, List.nodup_cons] at hnd_cons
  have hall : ∀ x ∈ l.erase old, ¬ ((fun x => x.component == c && x.var == v) x = true) := by
    intro x hx hpx
    have hkey : initial_value_key x = (c, v) := by
      simp only [Bool.and_eq_true, beq_iff_eq] at hpx
      simp [initial_value_key, hpx.1, hpx.2]
    exact hnd_cons.1 (by rw [hold_key]; exact List.mem_map.mpr ⟨x, hx, hkey⟩)
  constructor
  · rw [List.filter_append, List.filter_eq_nil_iff.mpr hall]
    simp
  · rw [List.map_append]
    simp only [List.map_cons, List.map_nil]
    rw [(List.perm_append_singleton _ _).nodup_iff, List.nodup_cons]
    refine ⟨?_, hnd_cons.2⟩
    simp only [initial_value_key]
    rw [← hold_key]
    exact hnd_cons.1

theorem add_update_initial_value_success_state (cfg : SimulationConfiguration)
    (c v : String) (val : PyVal) (comp : Component)
    (hc : cfg.get_component_by_name c = .ok comp)
    (hv : ¬(v ∉ comp.fmu.get_parameter_names ∧ v ∉ comp.fmu.get_input_names)) :
    (cfg.add_update_initial_value c v val).1 = .ok ⟨c, v, val⟩
    ∧ ((cfg.add_update_initial_value c v val).2).initial_values =
      (match cfg.initial_values.find? (fun x => x.component == c && x.var == v) with
       | some old => cfg.initial_values.erase old
       | none => cfg.initial_values) ++ [(⟨c, v, val⟩ : InitialValues)] := by
  cases hf : cfg.initial_values.find? (fun x => x.component == c && x.var == v) with
  | some old =>
    constructor <;>
      simp only [SimulationConfiguration.add_update_initial_value, hc, if_neg hv,
        SimulationConfiguration.get_initial_value_by_variable, hf]
  | none =>
    constructor <;>
      simp only [SimulationConfiguration.add_update_initial_value, hc, if_neg hv,
        SimulationConfiguration.get_initial_value_by_variable, hf]

theorem initial_values_keys_nodup_preserved (cfg : SimulationConfiguration)
    (c v : String) (val : PyVal) (hnd : initial_values_keys_nodup cfg) :
    initial_values_keys_nodup (cfg.add_update_initial_value c v val).2 := by
  cases hc : cfg.get_component_by_name c with
  | error e =>
    simp only [SimulationConfiguration.add_update_initial_value, hc]
    exact hnd
  | ok comp =>
    by_cases hv : v ∉ comp.fmu.get_parameter_names ∧ v ∉ comp.fmu.get_input_names
    · simp only [SimulationConfiguration.add_update_initial_value, hc, if_pos hv]
      exact hnd
    · have hstate := (add_update_initial_value_success_state cfg c v val comp hc hv).2
      unfold initial_values_keys_nodup
      rw [hstate]
      cases hf : cfg.initial_values.find? (fun x => x.component == c && x.var == v) with
      | some old => exact (upsert_replace_case cfg.initial_values c v val old hnd hf).2
      | none => exact (upsert_fresh_case cfg.initial_values c v val hnd hf).2

theorem initial_values_keys_nodup_calls (calls : List (String × String × PyVal)) :
    ∀ cfg : SimulationConfiguration, initial_values_keys_nodup cfg →
      initial_values_keys_nodup (apply_initial_value_calls cfg calls) := by
  induction calls with
  | nil => intro cfg h; exact h
  | cons call rest ih =>
    intro cfg h
    exact ih ((cfg.add_update_initial_value call.1 call.2.1 call.2.2).2)
      (initial_values_keys_nodup_preserved cfg call.1 call.2.1 call.2.2 h)

/-- C10, counterexample: on a configuration seeded through the constructor
with two initial values for the same (component, variable) pair, a
successful `add_update_initial_value` call for that pair leaves two entries
for it, not exactly one: only the first pre-existing entry is removed. -/
theorem add_update_initial_value_exactly_one_counterexample :
    (duplicated_initial_values_configuration.add_update_initial_value "a" "p" (.pyInt 3)).1 =
      .ok ⟨"a", "p", .pyInt 3⟩
    ∧ ((duplicated_initial_values_configuration.add_update_initial_value "a" "p"
        (.pyInt 3)).2).initial_values.countP
        (fun x => x.component == "a" && x.var == "p") = 2 := by
  constructor
  · decide
  · decide

/-- C10, amended: after every successful `add_update_initial_value` call on
a configuration whose initial_values is a list with pairwise-distinct
(component, variable) pairs, the list contains exactly one entry for the
given pair, holding the value just given (the pre-existing entry for the
pair, if any, is removed before appending), and the pairs stay pairwise
distinct across every sequence of calls. -/
theorem add_update_initial_value_upsert :
    ∀ (cfg : SimulationConfiguration) (component_name var_name : String) (value : PyVal),
      (∀ iv cfg', initial_values_keys_nodup cfg →
        cfg.add_update_initial_value component_name var_name value = (.ok iv, cfg') →
        cfg'.initial_values.filter
            (fun x => x.component == component_name && x.var == var_name) =
          [(⟨component_name, var_name, value⟩ : InitialValues)]
        ∧ initial_values_keys_nodup cfg')
      ∧ (initial_values_keys_nodup cfg →
          initial_values_keys_nodup
            (cfg.add_update_initial_value component_name var_name value).2)
      ∧ (∀ calls : List (String × String × PyVal), initial_values_keys_nodup cfg →
          initial_values_keys_nodup (apply_initial_value_calls cfg calls)) := by
  intro cfg c v val
  refine ⟨?_, initial_values_keys_nodup_preserved cfg c v val,
    fun calls h => initial_values_keys_nodup_calls calls cfg h⟩
  intro iv cfg' hnd h
  cases hc : cfg.get_component_by_name c with
  | error e =>
    simp only [SimulationConfiguration.add_update_initial_value, hc] at h
    simp at h
  | ok comp =>
    by_cases hv : v ∉ comp.fmu.get_parameter_names ∧ v ∉ comp.fmu.get_input_names
    · simp only [SimulationConfiguration.add_update_initial_value, hc, if_pos hv] at h
      simp at h
    · have hcfg' : cfg' = (cfg.add_update_initial_value c v val).2 := by
        rw [h]
      have hstate := (add_update_initial_value_success_state cfg c v val comp hc hv).2
      rw [hcfg']
      unfold initial_values_keys_nodup
      rw [hstate]
      cases hf : cfg.initial_values.find? (fun x => x.component == c && x.var == v) with
      | some old => exact upsert_replace_case cfg.initial_values c v val old hnd hf
      | none => exact upsert_fresh_case cfg.initial_values c v val hnd hf

/-- Instantiation of `add_update_initial_value_upsert` on a concrete
configuration with distinct initial-value pairs: the successful call leaves
exactly one entry for the pair, holding the new value. -/
theorem add_update_initial_value_upsert_witness :
    ((sample_configuration.add_update_initial_value "a" "p" (.pyInt 7)).2).initial_values.filter
        (fun x => x.component == "a" && x.var == "p") = [(⟨"a", "p", .pyInt 7⟩ : InitialValues)]
    ∧ initial_values_keys_nodup
        (sample_configuration.add_update_initial_value "a" "p" (.pyInt 7)).2 :=
  (add_update_initial_value_upsert sample_configuration "a" "p" (.pyInt 7)).1
    ⟨"a", "p", .pyInt 7⟩ (sample_configuration.add_update_initial_value "a" "p" (.pyInt 7)).2
    (by unfold initial_values_keys_nodup; decide) (by decide)

theorem filter_endpoints_ok (cfg : SimulationConfiguration) (pick : FMU → List String)
    (nm : String) (comp : Component)
    (hfind : cfg.components.find? (fun x => x.name == nm) = some comp) :
    ∀ eps : List OspVariableEndpoint, (∀ ep ∈ eps, ep.simulator = nm) →
      cfg.filter_endpoints_by_names pick eps =
        .ok (eps.filter (fun ep => decide (ep.name ∈ pick comp.fmu))) := by
  intro eps
  induction eps with
  | nil => intro _; rfl
  | cons ep rest ih =>
    intro hall
    have hsim : ep.simulator = nm := hall ep (List.mem_cons_self ep rest)
    have hget : cfg.get_component_by_name ep.simulator = .ok comp := by
      simp only [SimulationConfiguration.get_component_by_name, hsim, hfind]
    have ihr := ih (fun x hx => hall x (List.mem_cons_of_mem ep hx))
    by_cases hmem : ep.name ∈ pick comp.fmu
    · simp [SimulationConfiguration.filter_endpoints_by_names, hget, ihr, hmem,
        List.filter_cons]
    · simp [SimulationConfiguration.filter_endpoints_by_names, hget, ihr, hmem,
        List.filter_cons]

theorem validate_output_error_of_invalid (cfg : SimulationConfiguration)
    (endpoint : OspVariableEndpoint) (h : endpoint_has_valid_output cfg endpoint = false) :
    ∃ msg, cfg.validate_variable_endpoint endpoint Causality.output =
      .error (.typeError msg) := by
  unfold endpoint_has_valid_output at h
  cases hfind : cfg.components.find? (fun x => x.name == endpoint.simulator) with
  | none =>
    refine ⟨"The component name given in the input does not match " ++
      "the names of components in the system.", ?_⟩
    simp only [SimulationConfiguration.validate_variable_endpoint, hfind]
  | some comp =>
    rw [hfind] at h
    have hmem : endpoint.name ∉ comp.fmu.get_output_names := of_decide_eq_false h
    refine ⟨"The input variable does not match the names of " ++
      "inputs of the component.", ?_⟩
    simp [SimulationConfiguration.validate_variable_endpoint, hfind, hmem]

theorem validate_output_ok_of_valid (cfg : SimulationConfiguration)
    (endpoint : OspVariableEndpoint) (h : endpoint_has_valid_output cfg endpoint = true) :
    cfg.validate_variable_endpoint endpoint Causality.output = .ok true := by
  unfold endpoint_has_valid_output at h
  cases hfind : cfg.components.find? (fun x => x.name == endpoint.simulator) with
  | none => rw [hfind] at h; cases h
  | some comp =>
    rw [hfind] at h
    have hmem : endpoint.name ∈ comp.fmu.get_output_names := of_decide_eq_true h
    simp [SimulationConfiguration.validate_variable_endpoint, hfind, hmem]

theorem validate_input_error_of_invalid (cfg : SimulationConfiguration)
    (endpoint : OspVariableEndpoint) (h : endpoint_has_valid_input cfg endpoint = false) :
    ∃ msg, cfg.validate_variable_endpoint endpoint Causality.input =
      .error (.typeError msg) := by
  unfold endpoint_has_valid_input at h
  cases hfind : cfg.components.find? (fun x => x.name == endpoint.simulator) with
  | none =>
    refine ⟨"The component name given in the input does not match " ++
      "the names of components in the system.", ?_⟩
    simp only [SimulationConfiguration.validate_variable_endpoint, hfind]
  | some comp =>
    rw [hfind] at h
    have hmem : endpoint.name ∉ comp.fmu.get_input_names := of_decide_eq_false h
    refine ⟨"The input variable does not match the names of " ++
      "inputs of the component.", ?_⟩
    simp [SimulationConfiguration.validate_variable_endpoint, hfind, hmem]

theorem validate_input_error_of_taken (cfg : SimulationConfiguration)
    (endpoint : OspVariableEndpoint)
    (hvalid : endpoint_has_valid_input cfg endpoint = true)
    (hfree : input_target_is_free cfg endpoint = false) :
    ∃ msg, cfg.validate_variable_endpoint endpoint Causality.input =
      .error (.typeError msg) := by
  unfold endpoint_has_valid_input at hvalid
  cases hfind : cfg.components.find? (fun x => x.name == endpoint.simulator) with
  | none => rw [hfind] at hvalid; cases hvalid
  | some comp =>
    rw [hfind] at hvalid
    have hmem : endpoint.name ∈ comp.fmu.get_input_names := of_decide_eq_true hvalid
    have hconn : ∃ conn ∈ cfg.system_structure.VariableConnections, conn.target = endpoint := by
      unfold input_target_is_free at hfree
      have := of_decide_eq_false hfree
      push_neg at this
      obtain ⟨conn, hconn_mem, hconn_eq⟩ := this
      exact ⟨conn, hconn_mem, hconn_eq⟩
    obtain ⟨conn, hconn_mem, hconn_eq⟩ := hconn
    have hall : ∀ ep ∈ cfg.system_structure.get_all_endpoints_for_component
        endpoint.simulator, ep.simulator = endpoint.simulator := by
      intro ep hep
      have := (List.mem_filter.mp hep).2
      exact of_decide_eq_true this
    have hin_eps : endpoint ∈ cfg.system_structure.get_all_endpoints_for_component
        endpoint.simulator := by
      apply List.mem_filter.mpr
      constructor
      · apply List.mem_append.mpr
        right
        exact List.mem_map.mpr ⟨conn, hconn_mem, hconn_eq⟩
      · simp
    have hfilter := filter_endpoints_ok cfg FMU.get_input_names endpoint.simulator comp hfind
      (cfg.system_structure.get_all_endpoints_for_component endpoint.simulator) hall
    have hname_mem : endpoint.name ∈
        ((cfg.system_structure.get_all_endpoints_for_component endpoint.simulator).filter
          (fun ep => decide (ep.name ∈ comp.fmu.get_input_names))).map (·.name) := by
      apply List.mem_map.mpr
      refine ⟨endpoint, ?_, rfl⟩
      exact List.mem_filter.mpr ⟨hin_eps, decide_eq_true hmem⟩
    refine ⟨"An endpoint already exists for this target.", ?_⟩
    simp only [SimulationConfiguration.validate_variable_endpoint, hfind,
      SimulationConfiguration.get_variable_endpoints_of_component_for_variable_connection,
      hfilter]
    simp [hmem, hname_mem]

/-- C3: for two `OspVariableEndpoint` arguments with `group=False`,
`add_connection` raises a TypeError and leaves the configuration unchanged
whenever the source endpoint does not name an existing component and one of
its model's output variables, or the target endpoint does not name an
existing component and one of its model's input variables, or the target
endpoint is already the target of an existing variable connection. -/
theorem add_connection_validates_endpoints :
    ∀ (cfg : SimulationConfiguration) (source target : OspVariableEndpoint),
      (endpoint_has_valid_output cfg source && endpoint_has_valid_input cfg target &&
        input_target_is_free cfg target) = false →
      ∃ msg, cfg.add_connection source target false = (.error (.typeError msg), cfg) := by
  intro cfg source target h
  by_cases hs : endpoint_has_valid_output cfg source = true
  · by_cases ht : endpoint_has_valid_input cfg target = true
    · have hfree : input_target_is_free cfg target = false := by
        simpa [hs, ht] using h
      obtain ⟨msg, hmsg⟩ := validate_input_error_of_taken cfg target ht hfree
      refine ⟨msg, ?_⟩
      simp only [SimulationConfiguration.add_connection,
        validate_output_ok_of_valid cfg source hs, hmsg]
      rfl
    · have ht' : endpoint_has_valid_input cfg target = false := by
        simpa using ht
      obtain ⟨msg, hmsg⟩ := validate_input_error_of_invalid cfg target ht'
      refine ⟨msg, ?_⟩
      simp only [SimulationConfiguration.add_connection,
        validate_output_ok_of_valid cfg source hs, hmsg]
      rfl
  · have hs' : endpoint_has_valid_output cfg source = false := by
      simpa using hs
    obtain ⟨msg, hmsg⟩ := validate_output_error_of_invalid cfg source hs'
    refine ⟨msg, ?_⟩
    simp only [SimulationConfiguration.add_connection, hmsg]
    rfl

/-- Instantiation of `add_connection_validates_endpoints` on a concrete
configuration: connecting from a source endpoint whose component does not
exist raises a TypeError and leaves the configuration unchanged. -/
theorem add_connection_validates_endpoints_witness :
    ∃ msg, sample_configuration.add_connection ⟨"zz", "o"⟩ ⟨"a", "i"⟩ false =
      (.error (.typeError msg), sample_configuration) :=
  add_connection_validates_endpoints sample_configuration ⟨"zz", "o"⟩ ⟨"a", "i"⟩ (by decide)

end Pycosim
